import Mathlib

/-!
# memberlist: configuration surface (config.go)

A shallow embedding of `Config`, its three default constructors
(`DefaultLANConfig`, `DefaultWANConfig`, `DefaultLocalConfig`) and
`Config.EncryptionEnabled`, followed by the timing formulas the
configuration comments document (suspicion timeout, awareness scaling).

Conventions:
* `time.Duration` is a signed count of nanoseconds (`Int`); the constants
  of the Go `time` package are reproduced with their values.
* a Go `int` / `uint8` field is an `Int` / `Nat`; every constant of the
  source is far inside the machine range, so no wrap-around occurs.
* an interface value or pointer the configuration merely stores is an
  `Option` of an abstract handle, `none` being Go's `nil`.
* a field a Go composite literal leaves out takes the zero value of its
  type; the structure's field defaults are exactly those zero values.
-/

namespace Memberlist

/-! ## Go `time` package -/

/-- Go `time.Duration`: nanoseconds as a signed integer. -/
abbrev Duration := Int

/-- Go `time.Nanosecond`. -/
def Nanosecond : Duration := 1
/-- Go `time.Microsecond`. -/
def Microsecond : Duration := 1000 * Nanosecond
/-- Go `time.Millisecond`. -/
def Millisecond : Duration := 1000 * Microsecond
/-- Go `time.Second`. -/
def Second : Duration := 1000 * Millisecond

/-! ## Data model -/

/-- An object the configuration only holds a reference to (a `Transport`,
a delegate, a writer, a logger). -/
abbrev Handle := Nat

/-- Modelled from the spec: the `Keyring` type is declared outside
config.go; the spec's data model describes it as an ordered list of
symmetric keys, the key at index 0 being the primary one. A key is a
list of bytes. -/
structure Keyring where
  keys : List (List Nat) := []
deriving DecidableEq, Repr

/-- Modelled from the spec: `Keyring.GetKeys` is declared outside
config.go; it returns the installed keys in order. -/
def Keyring.GetKeys (k : Keyring) : List (List Nat) := k.keys

/-- The `Config` struct of config.go, field for field and in source
order. The default of each field is the Go zero value of its type. -/
structure Config where
  Name : String := ""
  Transport : Option Handle := none
  BindAddr : String := ""
  BindPort : Int := 0
  AdvertiseAddr : String := ""
  AdvertisePort : Int := 0
  ProtocolVersion : Nat := 0
  TCPTimeout : Duration := 0
  IndirectChecks : Int := 0
  RetransmitMult : Int := 0
  SuspicionMult : Int := 0
  SuspicionMaxTimeoutMult : Int := 0
  PushPullInterval : Duration := 0
  ProbeInterval : Duration := 0
  ProbeTimeout : Duration := 0
  DisableTcpPings : Bool := false
  AwarenessMaxMultiplier : Int := 0
  GossipInterval : Duration := 0
  GossipNodes : Int := 0
  GossipToTheDeadTime : Duration := 0
  GossipVerifyIncoming : Bool := false
  GossipVerifyOutgoing : Bool := false
  EnableCompression : Bool := false
  SecretKey : List Nat := []
  Keyring : Option Keyring := none
  Delegate : Option Handle := none
  DelegateProtocolVersion : Nat := 0
  DelegateProtocolMin : Nat := 0
  DelegateProtocolMax : Nat := 0
  Events : Option Handle := none
  Conflict : Option Handle := none
  Merge : Option Handle := none
  Ping : Option Handle := none
  Alive : Option Handle := none
  DNSConfigPath : String := ""
  LogOutput : Option Handle := none
  Logger : Option Handle := none
  HandoffQueueDepth : Int := 0
  UDPBufferSize : Int := 0
  DeadNodeReclaimTime : Duration := 0

/-! ## Constructors

`os.Hostname()` is the only input of the constructors: its result (the
empty string when the call fails) is the parameter `hostname`. The
constant `ProtocolVersion2Compatible` is declared outside config.go and is
passed in as `protocolVersion2Compatible`. -/

/-- `DefaultLANConfig` (config.go:370-406). -/
def DefaultLANConfig (hostname : String) (protocolVersion2Compatible : Nat) : Config :=
  { Name := hostname
    BindAddr := "0.0.0.0"
    BindPort := 7946
    AdvertiseAddr := ""
    AdvertisePort := 7946
    ProtocolVersion := protocolVersion2Compatible
    TCPTimeout := 10 * Second
    IndirectChecks := 3
    RetransmitMult := 4
    SuspicionMult := 4
    SuspicionMaxTimeoutMult := 6
    PushPullInterval := 30 * Second
    ProbeTimeout := 500 * Millisecond
    ProbeInterval := 1 * Second
    DisableTcpPings := false
    AwarenessMaxMultiplier := 8
    GossipNodes := 3
    GossipInterval := 200 * Millisecond
    GossipToTheDeadTime := 30 * Second
    GossipVerifyIncoming := true
    GossipVerifyOutgoing := true
    EnableCompression := true
    SecretKey := []
    Keyring := none
    DNSConfigPath := "/etc/resolv.conf"
    HandoffQueueDepth := 1024
    UDPBufferSize := 1400 }

/-- `DefaultWANConfig` (config.go:412-425): the LAN configuration with
eight assignments applied in source order. -/
def DefaultWANConfig (hostname : String) (protocolVersion2Compatible : Nat) : Config :=
  let conf := DefaultLANConfig hostname protocolVersion2Compatible
  let conf := { conf with TCPTimeout := 30 * Second }
  let conf := { conf with SuspicionMult := 6 }
  let conf := { conf with PushPullInterval := 60 * Second }
  let conf := { conf with ProbeTimeout := 3 * Second }
  let conf := { conf with ProbeInterval := 5 * Second }
  let conf := { conf with GossipNodes := 4 }
  let conf := { conf with GossipInterval := 500 * Millisecond }
  let conf := { conf with GossipToTheDeadTime := 60 * Second }
  conf

/-- `DefaultLocalConfig` (config.go:431-444): the LAN configuration with
nine assignments applied in source order. -/
def DefaultLocalConfig (hostname : String) (protocolVersion2Compatible : Nat) : Config :=
  let conf := DefaultLANConfig hostname protocolVersion2Compatible
  let conf := { conf with TCPTimeout := Second }
  let conf := { conf with IndirectChecks := 1 }
  let conf := { conf with RetransmitMult := 2 }
  let conf := { conf with SuspicionMult := 3 }
  let conf := { conf with PushPullInterval := 15 * Second }
  let conf := { conf with ProbeTimeout := 200 * Millisecond }
  let conf := { conf with ProbeInterval := Second }
  let conf := { conf with GossipInterval := 100 * Millisecond }
  let conf := { conf with GossipToTheDeadTime := 15 * Second }
  conf

/-- `Config.EncryptionEnabled` (config.go:447-449):
`c.Keyring != nil && len(c.Keyring.GetKeys()) > 0`, the right operand
being evaluated only when the keyring is not nil. -/
def Config.EncryptionEnabled (c : Config) : Bool :=
  match c.Keyring with
  | none => false
  | some k => decide (k.GetKeys.length > 0)

/-! ## Suspicion timeout (documented formulas) -/

/-- Modelled from the spec: the function that computes the suspicion
timeout is declared outside config.go. Spec 4.2 and the comment on
`SuspicionMult` (config.go:133) give
`SuspicionTimeout = SuspicionMult * log(N+1) * ProbeInterval`.
The logarithm is the parameter `log` (the spec writes `ln`, the comment
`log`); the result is a number of nanoseconds in the number type `K` of
that logarithm. -/
def Config.SuspicionTimeout {K : Type} [Mul K] [Add K] [One K] [NatCast K] [IntCast K]
    (c : Config) (log : K → K) (n : Nat) : K :=
  ((c.SuspicionMult : Int) : K) * log ((n : K) + 1) * ((c.ProbeInterval : Int) : K)

/-- Modelled from the spec: the upper bound of the suspicion timer is
computed outside config.go. Spec 4.2 and the comment on
`SuspicionMaxTimeoutMult` (config.go:150) give
`SuspicionMaxTimeout = SuspicionMaxTimeoutMult * SuspicionTimeout`. -/
def Config.SuspicionMaxTimeout {K : Type} [Mul K] [Add K] [One K] [NatCast K] [IntCast K]
    (c : Config) (log : K → K) (n : Nat) : K :=
  ((c.SuspicionMaxTimeoutMult : Int) : K) * c.SuspicionTimeout log n

/-! ## Awareness score -/

/-- Modelled from the spec: the awareness score is implemented outside
config.go. Spec 4.5 distinguishes two probe outcomes, failure/timeout and
success. -/
inductive ProbeOutcome where
  | failure
  | success
deriving DecidableEq, Repr

/-- Modelled from the spec: the awareness score is implemented outside
config.go. Spec 4.5: on failure/timeout `score = min(score+1, max)`, on
success `score = max(score-1, 0)`. -/
def Awareness.ApplyOutcome (maxMultiplier : Int) (score : Int) : ProbeOutcome → Int
  | .failure => min (score + 1) maxMultiplier
  | .success => max (score - 1) 0

/-- The score after a sequence of probe outcomes, oldest first. -/
def Awareness.Run (maxMultiplier : Int) (score : Int) (outcomes : List ProbeOutcome) : Int :=
  outcomes.foldl (Awareness.ApplyOutcome maxMultiplier) score

/-- Modelled from the spec: the probe scheduler is implemented outside
config.go. Spec 4.1: the probe interval is scaled by awareness,
`effectiveInterval = ProbeInterval * (1 + awarenessScore)` up to
`AwarenessMaxMultiplier`: the factor `1 + score` grows with the score and
stops at `AwarenessMaxMultiplier`. -/
def Config.EffectiveProbeInterval (c : Config) (score : Int) : Duration :=
  c.ProbeInterval * min (1 + score) c.AwarenessMaxMultiplier

/-- The effective probe intervals of `c` over the score range the spec
documents, `[0, AwarenessMaxMultiplier]`. -/
def Config.EffectiveProbeIntervals (c : Config) : Set Duration :=
  { d | ∃ score : Int, 0 ≤ score ∧ score ≤ c.AwarenessMaxMultiplier ∧
          c.EffectiveProbeInterval score = d }

/-- The effective probe intervals of `c` over the scores that probe
outcomes produce: any sequence of outcomes applied to any starting score
of the documented range. -/
def Config.ReachableProbeIntervals (c : Config) : Set Duration :=
  { d | ∃ (start : Int) (outcomes : List ProbeOutcome),
          0 ≤ start ∧ start ≤ c.AwarenessMaxMultiplier ∧
          c.EffectiveProbeInterval
            (Awareness.Run c.AwarenessMaxMultiplier start outcomes) = d }

/-! ## Concrete configurations used as test inputs -/

/-- A 16-byte key (AES-128 length). -/
def key16 : List Nat := List.replicate 16 7

/-- A LAN configuration on which only `SecretKey` has been set. -/
def cfgSecretOnly : Config :=
  { DefaultLANConfig "node-a" 2 with SecretKey := key16 }

/-- A LAN configuration whose keyring holds the secret key as primary key. -/
def cfgKeyInstalled : Config :=
  { DefaultLANConfig "node-a" 2 with SecretKey := key16, Keyring := some { keys := [key16] } }

/-- A configuration that shares only its keyring with `cfgKeyInstalled`. -/
def cfgOtherFields : Config :=
  { Name := "node-b"
    GossipVerifyIncoming := false
    GossipVerifyOutgoing := false
    SecretKey := []
    Keyring := some { keys := [key16] } }

/-- The LAN configuration with `SuspicionMult` set to 5 instead of 4. -/
def cfgSuspicionMult5 : Config :=
  { DefaultLANConfig "node-a" 2 with SuspicionMult := 5 }

/-! ## Theorems: `EncryptionEnabled` -/

/-- C1: `c.EncryptionEnabled()` is true exactly when `c.Keyring` is not nil
and `GetKeys()` returns at least one key, and two configurations with the
same keyring get the same answer whatever their other fields hold
(`SecretKey`, `GossipVerifyIncoming`, `GossipVerifyOutgoing`, ...). -/
theorem EncryptionEnabled_iff_keyring_has_key (c : Config) :
    (c.EncryptionEnabled = true ↔
        ∃ k : Keyring, c.Keyring = some k ∧ 1 ≤ k.GetKeys.length) ∧
    (∀ c2 : Config, c2.Keyring = c.Keyring →
        c2.EncryptionEnabled = c.EncryptionEnabled) ∧
    (∀ (sk : List Nat) (vi vo : Bool),
        Config.EncryptionEnabled
          { c with SecretKey := sk, GossipVerifyIncoming := vi, GossipVerifyOutgoing := vo }
          = c.EncryptionEnabled) := by
  refine ⟨?_, ?_, ?_⟩
  · unfold Config.EncryptionEnabled
    cases hk : c.Keyring with
    | none => simp
    | some k =>
      simp only [decide_eq_true_eq, Option.some.injEq, exists_eq_left']
      exact Iff.rfl
  · intro c2 h
    unfold Config.EncryptionEnabled
    rw [h]
  · intro sk vi vo
    rfl

/-- C1, at concrete inputs: a keyring with one key enables encryption, and
a configuration differing in every other field but with the same keyring
agrees. -/
theorem EncryptionEnabled_iff_keyring_has_key_witness :
    cfgKeyInstalled.EncryptionEnabled = true ∧
    cfgOtherFields.EncryptionEnabled = cfgKeyInstalled.EncryptionEnabled :=
  ⟨(EncryptionEnabled_iff_keyring_has_key cfgKeyInstalled).1.mpr
      ⟨{ keys := [key16] }, rfl, by decide⟩,
   (EncryptionEnabled_iff_keyring_has_key cfgKeyInstalled).2.1 cfgOtherFields rfl⟩

/-- C6, refuted as stated: a configuration whose `SecretKey` is a 16-byte
key and whose `Keyring` is nil reports encryption as disabled. -/
theorem SecretKey_alone_does_not_enable_encryption :
    cfgSecretOnly.SecretKey.length = 16 ∧
    cfgSecretOnly.Keyring = none ∧
    cfgSecretOnly.EncryptionEnabled = false := by
  refine ⟨?_, ?_, ?_⟩ <;> rfl

/-- C6, amended: when `SecretKey` is a key of 16, 24 or 32 bytes and that
key is installed on the configuration's keyring, `EncryptionEnabled()`
returns true (the code looks at the keyring only; the length condition is
the one the claim puts on `SecretKey`). -/
theorem EncryptionEnabled_of_SecretKey_installed (c : Config) (k : Keyring)
    (_hlen : c.SecretKey.length = 16 ∨ c.SecretKey.length = 24 ∨ c.SecretKey.length = 32)
    (hring : c.Keyring = some k) (hin : c.SecretKey ∈ k.GetKeys) :
    c.EncryptionEnabled = true := by
  have hpos : 0 < k.GetKeys.length := List.length_pos_of_mem hin
  unfold Config.EncryptionEnabled
  rw [hring]
  simpa using hpos

/-- C6, amended, at a concrete input: the 16-byte key installed as primary
key. -/
theorem EncryptionEnabled_of_SecretKey_installed_witness :
    cfgKeyInstalled.SecretKey.length = 16 ∧
    cfgKeyInstalled.Keyring = some { keys := [key16] } ∧
    cfgKeyInstalled.SecretKey ∈ Keyring.GetKeys { keys := [key16] } ∧
    cfgKeyInstalled.EncryptionEnabled = true :=
  ⟨rfl, rfl, by decide,
   EncryptionEnabled_of_SecretKey_installed cfgKeyInstalled { keys := [key16] }
    (Or.inl rfl) rfl (by decide)⟩

/-! ## Theorems: default constructors -/

/-- C2: the three default constructors set `UDPBufferSize` to 1400 for
every hostname. -/
theorem default_UDPBufferSize (hostname : String) (pv : Nat) :
    (DefaultLANConfig hostname pv).UDPBufferSize = 1400 ∧
    (DefaultWANConfig hostname pv).UDPBufferSize = 1400 ∧
    (DefaultLocalConfig hostname pv).UDPBufferSize = 1400 :=
  ⟨rfl, rfl, rfl⟩

/-- C3: `DefaultWANConfig()` is `DefaultLANConfig()` with exactly eight
fields replaced: TCPTimeout 30s, SuspicionMult 6, PushPullInterval 60s,
ProbeTimeout 3s, ProbeInterval 5s, GossipNodes 4, GossipInterval 500ms,
GossipToTheDeadTime 60s (durations in nanoseconds); every other field is
that of the LAN configuration. -/
theorem DefaultWANConfig_frame (hostname : String) (pv : Nat) :
    DefaultWANConfig hostname pv =
      { DefaultLANConfig hostname pv with
        TCPTimeout := 30000000000
        SuspicionMult := 6
        PushPullInterval := 60000000000
        ProbeTimeout := 3000000000
        ProbeInterval := 5000000000
        GossipNodes := 4
        GossipInterval := 500000000
        GossipToTheDeadTime := 60000000000 } ∧
    (DefaultWANConfig hostname pv).TCPTimeout = 30 * Second ∧
    (DefaultWANConfig hostname pv).SuspicionMult = 6 ∧
    (DefaultWANConfig hostname pv).PushPullInterval = 60 * Second ∧
    (DefaultWANConfig hostname pv).ProbeTimeout = 3 * Second ∧
    (DefaultWANConfig hostname pv).ProbeInterval = 5 * Second ∧
    (DefaultWANConfig hostname pv).GossipNodes = 4 ∧
    (DefaultWANConfig hostname pv).GossipInterval = 500 * Millisecond ∧
    (DefaultWANConfig hostname pv).GossipToTheDeadTime = 60 * Second := by
  refine ⟨?_, rfl, rfl, rfl, rfl, rfl, rfl, rfl, rfl⟩
  simp [DefaultWANConfig, DefaultLANConfig, Second, Millisecond, Microsecond, Nanosecond]

/-- C4: `DefaultLocalConfig()` is `DefaultLANConfig()` with exactly eight
fields replaced: TCPTimeout 1s, IndirectChecks 1, RetransmitMult 2,
SuspicionMult 3, PushPullInterval 15s, ProbeTimeout 200ms, GossipInterval
100ms, GossipToTheDeadTime 15s (durations in nanoseconds); ProbeInterval,
although assigned, keeps the LAN value of 1s. -/
theorem DefaultLocalConfig_frame (hostname : String) (pv : Nat) :
    DefaultLocalConfig hostname pv =
      { DefaultLANConfig hostname pv with
        TCPTimeout := 1000000000
        IndirectChecks := 1
        RetransmitMult := 2
        SuspicionMult := 3
        PushPullInterval := 15000000000
        ProbeTimeout := 200000000
        GossipInterval := 100000000
        GossipToTheDeadTime := 15000000000 } ∧
    (DefaultLocalConfig hostname pv).TCPTimeout = 1 * Second ∧
    (DefaultLocalConfig hostname pv).IndirectChecks = 1 ∧
    (DefaultLocalConfig hostname pv).RetransmitMult = 2 ∧
    (DefaultLocalConfig hostname pv).SuspicionMult = 3 ∧
    (DefaultLocalConfig hostname pv).PushPullInterval = 15 * Second ∧
    (DefaultLocalConfig hostname pv).ProbeTimeout = 200 * Millisecond ∧
    (DefaultLocalConfig hostname pv).GossipInterval = 100 * Millisecond ∧
    (DefaultLocalConfig hostname pv).GossipToTheDeadTime = 15 * Second ∧
    (DefaultLocalConfig hostname pv).ProbeInterval
      = (DefaultLANConfig hostname pv).ProbeInterval ∧
    (DefaultLocalConfig hostname pv).ProbeInterval = 1 * Second := by
  refine ⟨?_, rfl, rfl, rfl, rfl, rfl, rfl, rfl, rfl, rfl, rfl⟩
  simp [DefaultLocalConfig, DefaultLANConfig, Second, Millisecond, Microsecond, Nanosecond]

/-- C5: the three default constructors leave `DeadNodeReclaimTime` at 0:
none of them assigns the field, so it keeps the zero value. -/
theorem default_DeadNodeReclaimTime (hostname : String) (pv : Nat) :
    (DefaultLANConfig hostname pv).DeadNodeReclaimTime = 0 ∧
    (DefaultWANConfig hostname pv).DeadNodeReclaimTime = 0 ∧
    (DefaultLocalConfig hostname pv).DeadNodeReclaimTime = 0 :=
  ⟨rfl, rfl, rfl⟩

/-! ## Theorems: suspicion timeout -/

/-- With `e < 2.7182818286`: `e ^ 221 < 10001 ^ 24`, so `221/24 < ln 10001`. -/
theorem lower_bound_ln_10001 : (221 : ℝ) / 24 < Real.log 10001 := by
  rw [Real.lt_log_iff_exp_lt (by norm_num)]
  have hexp : Real.exp (221 / 24) ^ 24 = Real.exp 1 ^ 221 := by
    rw [← Real.exp_nat_mul, ← Real.exp_nat_mul]
    norm_num
  have hle : Real.exp 1 ^ 221 < (2.7182818286 : ℝ) ^ 221 :=
    pow_lt_pow_left₀ Real.exp_one_lt_d9 (Real.exp_pos 1).le (by norm_num)
  have hnum : (2.7182818286 : ℝ) ^ 221 < (10001 : ℝ) ^ 24 := by norm_num
  have hpow : Real.exp (221 / 24) ^ 24 < (10001 : ℝ) ^ 24 := by
    rw [hexp]
    exact hle.trans hnum
  exact lt_of_pow_lt_pow_left₀ 24 (by norm_num) hpow

/-- Since `10 ^ 4 < 10001`: `4 < log10 10001`. -/
theorem lower_bound_log10_10001 : (4 : ℝ) < Real.logb 10 10001 := by
  rw [Real.lt_logb_iff_rpow_lt (by norm_num) (by norm_num)]
  norm_num

/-- Since `10001 ^ 24 < 10 ^ 97`: `log10 10001 < 97/24`. -/
theorem upper_bound_log10_10001 : Real.logb 10 10001 < (97 : ℝ) / 24 := by
  have h10 : (0 : ℝ) < Real.log 10 := Real.log_pos (by norm_num)
  rw [Real.logb, div_lt_div_iff₀ h10 (by norm_num)]
  have h : Real.log ((10001 : ℝ) ^ 24) < Real.log ((10 : ℝ) ^ 97) :=
    Real.log_lt_log (by norm_num) (by norm_num)
  rw [Real.log_pow, Real.log_pow] at h
  push_cast at h
  linarith

/-- Since `10001 ^ 30 < 10 ^ 121`: `log10 10001 < 121/30`. -/
theorem upper_bound_log10_10001_fine : Real.logb 10 10001 < (121 : ℝ) / 30 := by
  have h10 : (0 : ℝ) < Real.log 10 := Real.log_pos (by norm_num)
  rw [Real.logb, div_lt_div_iff₀ h10 (by norm_num)]
  have h : Real.log ((10001 : ℝ) ^ 30) < Real.log ((10 : ℝ) ^ 121) :=
    Real.log_lt_log (by norm_num) (by norm_num)
  rw [Real.log_pow, Real.log_pow] at h
  push_cast at h
  linarith

/-- The documented max timeout of the LAN configuration for 10000 nodes,
in nanoseconds: `6 * (4 * log 10001 * 10^9)`. -/
theorem SuspicionMaxTimeout_LAN_unfold (hostname : String) (pv : Nat) (log : ℝ → ℝ) :
    (DefaultLANConfig hostname pv).SuspicionMaxTimeout log 10000
      = 24000000000 * log 10001 := by
  simp only [Config.SuspicionMaxTimeout, Config.SuspicionTimeout, DefaultLANConfig,
    Second, Millisecond, Microsecond, Nanosecond]
  norm_num
  ring

/-- The documented max timeout for 10000 nodes when `SuspicionMult` is 5,
in nanoseconds: `6 * (5 * log 10001 * 10^9)`. -/
theorem SuspicionMaxTimeout_mult5_unfold (log : ℝ → ℝ) :
    cfgSuspicionMult5.SuspicionMaxTimeout log 10000 = 30000000000 * log 10001 := by
  simp only [cfgSuspicionMult5, Config.SuspicionMaxTimeout, Config.SuspicionTimeout,
    DefaultLANConfig, Second, Millisecond, Microsecond, Nanosecond]
  norm_num
  ring

/-- One second, in nanoseconds, as a real number. -/
theorem Second_real (k : Int) : (((k * Second : Int)) : ℝ) = (k : ℝ) * 1000000000 := by
  simp only [Second, Millisecond, Microsecond, Nanosecond]
  push_cast
  ring

/-- C7, the constants against the 120 seconds of the comment: with
SuspicionMult = 4, SuspicionMaxTimeoutMult = 6, ProbeInterval = 1s and
N = 10000 the documented formulas stay away from 120 seconds, above it
with the natural logarithm and between 96s and 97s with the base-10
logarithm (exactly 96s when the logarithm factor is 4); with SuspicionMult
= 5 the base-10 result is between 120s and 121s (exactly 120s when the
factor is 4). -/
theorem SuspicionMaxTimeout_LAN_10k_not_120s :
    ((DefaultLANConfig "node-a" 2).SuspicionMult = 4 ∧
     (DefaultLANConfig "node-a" 2).SuspicionMaxTimeoutMult = 6 ∧
     (DefaultLANConfig "node-a" 2).ProbeInterval = 1 * Second) ∧
    ((120 * Second : Int) : ℝ)
      < (DefaultLANConfig "node-a" 2).SuspicionMaxTimeout Real.log 10000 ∧
    (((96 * Second : Int) : ℝ)
        < (DefaultLANConfig "node-a" 2).SuspicionMaxTimeout (Real.logb 10) 10000 ∧
      (DefaultLANConfig "node-a" 2).SuspicionMaxTimeout (Real.logb 10) 10000
        < ((97 * Second : Int) : ℝ)) ∧
    (((120 * Second : Int) : ℝ)
        < cfgSuspicionMult5.SuspicionMaxTimeout (Real.logb 10) 10000 ∧
      cfgSuspicionMult5.SuspicionMaxTimeout (Real.logb 10) 10000
        < ((121 * Second : Int) : ℝ)) ∧
    (DefaultLANConfig "node-a" 2).SuspicionMaxTimeout (fun _ : ℚ => 4) 10000
      = ((96 * Second : Int) : ℚ) ∧
    cfgSuspicionMult5.SuspicionMaxTimeout (fun _ : ℚ => 4) 10000
      = ((120 * Second : Int) : ℚ) := by
  have h1 := lower_bound_ln_10001
  have h2 := lower_bound_log10_10001
  have h3 := upper_bound_log10_10001
  have h4 := upper_bound_log10_10001_fine
  refine ⟨⟨rfl, rfl, rfl⟩, ?_, ⟨?_, ?_⟩, ⟨?_, ?_⟩, ?_, ?_⟩
  · rw [SuspicionMaxTimeout_LAN_unfold, Second_real]
    push_cast
    linarith
  · rw [SuspicionMaxTimeout_LAN_unfold, Second_real]
    push_cast
    linarith
  · rw [SuspicionMaxTimeout_LAN_unfold, Second_real]
    push_cast
    linarith
  · rw [SuspicionMaxTimeout_mult5_unfold, Second_real]
    push_cast
    linarith
  · rw [SuspicionMaxTimeout_mult5_unfold, Second_real]
    push_cast
    linarith
  · simp only [Config.SuspicionMaxTimeout, Config.SuspicionTimeout, DefaultLANConfig,
      Second, Millisecond, Microsecond, Nanosecond]
    norm_num
  · simp only [cfgSuspicionMult5, Config.SuspicionMaxTimeout, Config.SuspicionTimeout,
      DefaultLANConfig, Second, Millisecond, Microsecond, Nanosecond]
    norm_num

/-! ## Theorems: awareness score and effective probe interval -/

/-- One outcome keeps the score inside `[0, maxMultiplier]`. -/
theorem Awareness.ApplyOutcome_bounds (m s : Int) (o : ProbeOutcome)
    (hm : 0 ≤ m) (h0 : 0 ≤ s) (h1 : s ≤ m) :
    0 ≤ Awareness.ApplyOutcome m s o ∧ Awareness.ApplyOutcome m s o ≤ m := by
  cases o with
  | failure =>
    simp only [Awareness.ApplyOutcome]
    exact ⟨le_min (by omega) hm, min_le_right _ _⟩
  | success =>
    simp only [Awareness.ApplyOutcome]
    exact ⟨le_max_right _ _, max_le (by omega) hm⟩

/-- Awareness boundedness: no sequence of outcomes takes the score out of
`[0, maxMultiplier]`. -/
theorem Awareness.Run_bounds (m : Int) (hm : 0 ≤ m) (os : List ProbeOutcome) :
    ∀ s : Int, 0 ≤ s → s ≤ m →
      0 ≤ Awareness.Run m s os ∧ Awareness.Run m s os ≤ m := by
  induction os with
  | nil =>
    intro s h0 h1
    exact ⟨h0, h1⟩
  | cons o rest ih =>
    intro s h0 h1
    have hstep := Awareness.ApplyOutcome_bounds m s o hm h0 h1
    exact ih (Awareness.ApplyOutcome m s o) hstep.1 hstep.2

/-- Every score of `[0, maxMultiplier]` is produced from score 0 by that
many failed probes. -/
theorem Awareness.Run_failures (m : Int) (n : Nat) (hn : (n : Int) ≤ m) :
    ∀ s : Int, 0 ≤ s → s + n ≤ m →
      Awareness.Run m s (List.replicate n ProbeOutcome.failure) = s + n := by
  induction n with
  | zero =>
    intro s _ _
    simp [Awareness.Run]
  | succ k ih =>
    intro s h0 h1
    have hk : (k : Int) ≤ m := by push_cast at hn; omega
    have hstep : Awareness.ApplyOutcome m s ProbeOutcome.failure = s + 1 := by
      simp only [Awareness.ApplyOutcome]
      push_cast at h1
      exact min_eq_left (by omega)
    have hrec := ih hk (s + 1) (by omega) (by push_cast at h1; omega)
    simp only [Awareness.Run, List.replicate_succ, List.foldl_cons] at hrec ⊢
    rw [hstep, hrec]
    push_cast
    ring

/-- The effective probe interval of the LAN configuration, in nanoseconds. -/
theorem EffectiveProbeInterval_LAN_unfold (hostname : String) (pv : Nat) (score : Int) :
    (DefaultLANConfig hostname pv).EffectiveProbeInterval score
      = 1000000000 * min (1 + score) 8 := by
  simp [Config.EffectiveProbeInterval, DefaultLANConfig, Second, Millisecond, Microsecond,
    Nanosecond]

/-- C8: with the values of `DefaultLANConfig()` (ProbeInterval = 1s,
AwarenessMaxMultiplier = 8) the probe interval backs off to 8 seconds: 8
seconds is the largest effective interval over every score of the
documented range `[0, AwarenessMaxMultiplier]`, and also over every score
that a sequence of probe outcomes produces from a score of that range;
eight failed probes from score 0 reach it. -/
theorem EffectiveProbeInterval_LAN_backs_off_to_8s (hostname : String) (pv : Nat) :
    ((DefaultLANConfig hostname pv).ProbeInterval = 1 * Second ∧
     (DefaultLANConfig hostname pv).AwarenessMaxMultiplier = 8) ∧
    IsGreatest (DefaultLANConfig hostname pv).EffectiveProbeIntervals (8 * Second) ∧
    IsGreatest (DefaultLANConfig hostname pv).ReachableProbeIntervals (8 * Second) ∧
    (DefaultLANConfig hostname pv).EffectiveProbeInterval
        (Awareness.Run (DefaultLANConfig hostname pv).AwarenessMaxMultiplier 0
          (List.replicate 8 ProbeOutcome.failure)) = 8 * Second := by
  have hmax : (DefaultLANConfig hostname pv).AwarenessMaxMultiplier = 8 := rfl
  have hsec : ∀ k : Int, k * Second = 1000000000 * k := by
    intro k
    simp only [Second, Millisecond, Microsecond, Nanosecond]
    ring
  have hrun : Awareness.Run 8 0 (List.replicate 8 ProbeOutcome.failure) = 8 := by decide
  have hcap : ∀ score : Int, (1000000000 : Int) * min (1 + score) 8 ≤ 1000000000 * 8 := by
    intro score
    have := min_le_right (1 + score) 8
    linarith
  have htop : (DefaultLANConfig hostname pv).EffectiveProbeInterval 8 = 8 * Second := by
    rw [EffectiveProbeInterval_LAN_unfold, hsec]
    decide
  refine ⟨⟨rfl, rfl⟩, ⟨?_, ?_⟩, ⟨?_, ?_⟩, ?_⟩
  · exact ⟨8, by decide, by rw [hmax], htop⟩
  · rintro d ⟨score, _, _, rfl⟩
    rw [EffectiveProbeInterval_LAN_unfold, hsec]
    exact hcap score
  · refine ⟨0, List.replicate 8 ProbeOutcome.failure, le_refl 0, by rw [hmax]; decide, ?_⟩
    rw [hmax, hrun]
    exact htop
  · rintro d ⟨start, outcomes, _, _, rfl⟩
    rw [EffectiveProbeInterval_LAN_unfold, hsec]
    exact hcap _
  · rw [hmax, hrun]
    exact htop

/-- C8, at a concrete input: after eight failed probes from score 0 the
score is 8, the top of the range, and the effective interval there is
exactly 8 seconds, the bound. -/
theorem EffectiveProbeInterval_LAN_backs_off_to_8s_witness :
    Awareness.Run 8 0 (List.replicate 8 ProbeOutcome.failure) = 8 ∧
    (DefaultLANConfig "node-a" 2).EffectiveProbeInterval
        (Awareness.Run (DefaultLANConfig "node-a" 2).AwarenessMaxMultiplier 0
          (List.replicate 8 ProbeOutcome.failure)) ≤ 8 * Second ∧
    (DefaultLANConfig "node-a" 2).EffectiveProbeInterval
        (Awareness.Run (DefaultLANConfig "node-a" 2).AwarenessMaxMultiplier 0
          (List.replicate 8 ProbeOutcome.failure)) = 8 * Second :=
  ⟨by decide,
   (EffectiveProbeInterval_LAN_backs_off_to_8s "node-a" 2).2.2.1.2
     ⟨0, List.replicate 8 ProbeOutcome.failure, by decide, by decide, rfl⟩,
   (EffectiveProbeInterval_LAN_backs_off_to_8s "node-a" 2).2.2.2⟩

end Memberlist
